import Mathlib

/-!
Verification of the superdesk archive module (`superdesk-archive/module.js`)
and the user-resource behavioural contract.

The embedding models the `SpikeService` (`spike` / `unspike`), the
`archiveContent` activity controller, and the users resource described by the
feature scenarios.  Asynchronous promise resolution is made explicit: each
operation is split into a synchronous phase (issuing the API request, returning
the item untouched) and a resolution phase parameterised by the outcome of the
request (success or failure with a rejection payload).  The `$location.search`
`_id` query parameter is modelled as an `Option String`.
-/

namespace Superdesk

/-- Rejection payloads (error responses) are opaque to this code; modelled as
strings. -/
abbrev Response := String

/-- The `item.actioning` map: in-flight flags for the three tracked
operations. -/
structure Actioning where
  spike : Bool
  unspike : Bool
  archiveContent : Bool
deriving DecidableEq

/-- A content item; this module only reads `_id` and `guid` and mutates
`actioning`, `error`, `task_id` and `created`. -/
structure Item where
  _id : String
  guid : String
  state : String
  actioning : Actioning
  error : Option Response
  task_id : Option String
  created : Option String
deriving DecidableEq

/-- `var SPIKE_RESOURCE = 'archive_spike'`. -/
def SPIKE_RESOURCE : String := "archive_spike"

/-- `var UNSPIKE_RESOURCE = 'archive_unspike'`. -/
def UNSPIKE_RESOURCE : String := "archive_unspike"

/-- One call to `api.update(resource, item, payload)`; the payload is a JSON
object modelled as a key/value list. -/
structure UpdateRequest where
  resource : String
  item : Item
  payload : List (String × String)
deriving DecidableEq

/-- Resolution of a deferred update request: fulfilled, or rejected with a
response payload. -/
inductive Outcome where
  | success
  | failure (response : Response)
deriving DecidableEq

/-- Result of running `spike` to completion: the update requests issued, the
final item, and the final `$location.search()._id` value. -/
structure SpikeResult where
  requests : List UpdateRequest
  item : Item
  locationId : Option String
deriving DecidableEq

/-- Synchronous phase of `SpikeService.spike`: calls
`api.update(SPIKE_RESOURCE, item, {state: 'spiked'})` once and attaches the
handlers.  The item is returned unchanged: the function body writes no item
field before the promise resolves. -/
def spikeSync (item : Item) : UpdateRequest × Item :=
  (⟨SPIKE_RESOURCE, item, [("state", "spiked")]⟩, item)

/-- Resolution handlers of `SpikeService.spike`.  Success: clear the
`_id` query parameter when it equals the item's `_id`, then clear
`actioning.spike`.  Failure: store the response in `item.error`, then clear
`actioning.spike`. -/
def spikeResolve (locationId : Option String) (item : Item) :
    Outcome → Item × Option String
  | Outcome.success =>
      ({ item with actioning := { item.actioning with spike := false } },
       if locationId = some item._id then none else locationId)
  | Outcome.failure response =>
      ({ item with
          error := some response,
          actioning := { item.actioning with spike := false } },
       locationId)

/-- `SpikeService.spike(item)` run to completion under a given outcome. -/
def spike (locationId : Option String) (item : Item) (o : Outcome) :
    SpikeResult :=
  let s := spikeSync item
  let r := spikeResolve locationId s.2 o
  { requests := [s.1], item := r.1, locationId := r.2 }

/-- Result of running `unspike` to completion.  `unspike` never touches
`$location`, so no location field appears. -/
structure UnspikeResult where
  requests : List UpdateRequest
  item : Item
deriving DecidableEq

/-- Synchronous phase of `SpikeService.unspike`: calls
`api.update(UNSPIKE_RESOURCE, item, {})` once; the item is unchanged. -/
def unspikeSync (item : Item) : UpdateRequest × Item :=
  (⟨UNSPIKE_RESOURCE, item, []⟩, item)

/-- Resolution handlers of `SpikeService.unspike`: success clears
`actioning.unspike`; failure stores the response in `item.error` and clears
`actioning.unspike`. -/
def unspikeResolve (item : Item) : Outcome → Item
  | Outcome.success =>
      { item with actioning := { item.actioning with unspike := false } }
  | Outcome.failure response =>
      { item with
          error := some response,
          actioning := { item.actioning with unspike := false } }

/-- `SpikeService.unspike(item)` run to completion under a given outcome. -/
def unspike (item : Item) (o : Outcome) : UnspikeResult :=
  let s := unspikeSync item
  { requests := [s.1], item := unspikeResolve s.2 o }

/-- One call to `api.archiveIngest.create({guid: ..., desk: ...})`. -/
structure CreateRequest where
  resource : String
  guid : String
  desk : String
deriving DecidableEq

/-- The resource targeted by the fetch-to-archive activity controller,
`api.archiveIngest`. -/
def ARCHIVE_INGEST_RESOURCE : String := "archiveIngest"

/-- The resource representation the successful creation resolves with; the
controller reads only `task_id` and `created` from it. -/
structure ArchiveIngestItem where
  task_id : String
  created : String
deriving DecidableEq

/-- Resolution of the deferred creation request: fulfilled with the created
resource, or rejected with a response payload. -/
inductive CreateOutcome where
  | success (archiveItem : ArchiveIngestItem)
  | failure (response : Response)
deriving DecidableEq

/-- Synchronous phase of the `archiveContent` activity controller: calls
`api.archiveIngest.create({guid: data.item.guid, desk: desks.getCurrentDeskId()})`
once; the item is unchanged. -/
def archiveContentSync (currentDeskId : String) (item : Item) :
    CreateRequest × Item :=
  (⟨ARCHIVE_INGEST_RESOURCE, item.guid, currentDeskId⟩, item)

/-- Resolution handlers of the `archiveContent` controller: success copies
`task_id` and `created` from the created resource onto the item and clears
`actioning.archiveContent`; failure stores the response in `item.error` and
clears `actioning.archiveContent`. -/
def archiveContentResolve (item : Item) : CreateOutcome → Item
  | CreateOutcome.success a =>
      { item with
          task_id := some a.task_id,
          created := some a.created,
          actioning := { item.actioning with archiveContent := false } }
  | CreateOutcome.failure response =>
      { item with
          error := some response,
          actioning := { item.actioning with archiveContent := false } }

/-- The `archiveContent` activity controller run to completion under a given
outcome: the creation requests issued and the final item. -/
def archiveContent (currentDeskId : String) (item : Item) (o : CreateOutcome) :
    List CreateRequest × Item :=
  let s := archiveContentSync currentDeskId item
  ([s.1], archiveContentResolve s.2 o)

/-- Field lookup in a JSON-object representation (a key/value list): the value
of the first binding of `key`, or `none` when the key is absent. -/
def fieldOf (fields : List (String × String)) (key : String) : Option String :=
  match fields with
  | [] => none
  | (k, v) :: rest => if k = key then some v else fieldOf rest key

/-- Modelled from the spec: the externally implemented users HTTP resource.
The repository holds only its behavioural scenarios (the `User Resource`
feature file); the server code is absent from src.  A stored user has a
`username` (the resource key), a write-only `password`, and an optional
`first_name`. -/
structure StoredUser where
  username : String
  password : String
  first_name : Option String
deriving DecidableEq

/-- Modelled from the spec: the representation any response exposes for a
user.  It carries `username`, the canonical link `_links.self.href` derived
from the username, and `first_name` when present; the password is write-only
and never appears. -/
def userRepr (u : StoredUser) : List (String × String) :=
  [("username", u.username),
   ("_links.self.href", "/users/" ++ u.username)] ++
    (match u.first_name with
     | some f => [("first_name", f)]
     | none => [])

/-- Modelled from the spec: `POST /users` with body `{username, password}`
stores the user and responds with the new resource's representation. -/
def createUser (db : List StoredUser) (username password : String) :
    List StoredUser × List (String × String) :=
  let u : StoredUser := ⟨username, password, none⟩
  (db ++ [u], userRepr u)

/-- Modelled from the spec: `GET /users/{username}` responds with the stored
user's representation, or fails when absent. -/
def getUser (db : List StoredUser) (username : String) :
    Option (List (String × String)) :=
  (db.find? (fun u => u.username = username)).map userRepr

/-! Concrete items used by the counterexamples. -/

/-- A content item whose `actioning.spike` flag is not yet set. -/
def itemA : Item :=
  { _id := "item1", guid := "guid1", state := "normal",
    actioning := { spike := false, unspike := false, archiveContent := false },
    error := none, task_id := none, created := none }

/-- A content item carrying a stale error from an earlier failed operation. -/
def itemB : Item :=
  { itemA with error := some "earlier failure" }

/-- Claim C1: `spike(item)` issues exactly one update request, against the
`archive_spike` resource, passing the item and the payload
`{state: 'spiked'}`, and `item.actioning.spike` is false after resolution on
both the success and the failure path. -/
theorem spike_issues_one_request_and_clears_flag
    (locationId : Option String) (item : Item) (o : Outcome) :
    (spike locationId item o).requests =
      [⟨"archive_spike", item, [("state", "spiked")]⟩] ∧
    (spike locationId item o).item.actioning.spike = false := by
  cases o <;> exact ⟨rfl, rfl⟩

/-- Claim C2, counterexample: calling `spike` does not set
`item.actioning.spike` to true synchronously.  For `itemA`, whose flag is
false, the flag is still false after the synchronous phase of `spike` (the
request has been issued but nothing resolved), contradicting the claim. -/
theorem spike_sync_does_not_set_flag :
    itemA.actioning.spike = false ∧
    (spikeSync itemA).2.actioning.spike = false :=
  ⟨rfl, rfl⟩

/-- Claim C2, amended: calling `spike(i)` leaves `i` unchanged synchronously —
in particular it never sets `i.actioning.spike` to true; the flag is expected
to be set by the caller — and `i.actioning.spike = false` after resolution
regardless of whether the request succeeds or fails. -/
theorem spike_sync_unchanged_flag_cleared_after
    (locationId : Option String) (item : Item) (o : Outcome) :
    (spikeSync item).2 = item ∧
    (spike locationId item o).item.actioning.spike = false := by
  refine ⟨rfl, ?_⟩
  cases o <;> rfl

/-- Claim C3: on a successful `spike(i)`, the tracked `_id` query parameter is
cleared exactly when it equals `i._id`, and is left unchanged otherwise. -/
theorem spike_success_deselects_iff_match
    (locationId : Option String) (item : Item) :
    (spike locationId item Outcome.success).locationId =
      if locationId = some item._id then none else locationId := rfl

/-- Claim C4: when the spike or unspike update request is rejected with
payload `r`, the item's `error` equals `r`, the corresponding `actioning` flag
is false, and exactly one request was issued (no retry); the handlers are
total, so nothing is thrown. -/
theorem spike_unspike_failure_sets_error_clears_flag
    (locationId : Option String) (item : Item) (r : Response) :
    ((spike locationId item (Outcome.failure r)).item.error = some r ∧
     (spike locationId item (Outcome.failure r)).item.actioning.spike = false ∧
     (spike locationId item (Outcome.failure r)).requests.length = 1) ∧
    ((unspike item (Outcome.failure r)).item.error = some r ∧
     (unspike item (Outcome.failure r)).item.actioning.unspike = false ∧
     (unspike item (Outcome.failure r)).requests.length = 1) :=
  ⟨⟨rfl, rfl, rfl⟩, ⟨rfl, rfl, rfl⟩⟩

/-- Claim C5, counterexample: a successful operation does not clear
`item.error`.  `itemB` carries an error from an earlier failure; after a
successful `spike`, the error is still present, contradicting the claim that
`item.error` is absent/cleared after any successful operation. -/
theorem spike_success_keeps_stale_error :
    (spike none itemB Outcome.success).item.error = some "earlier failure" :=
  rfl

/-- Claim C5, amended: `item.error` is set (to the rejection payload) only by
failed operations; successful operations leave `item.error` unchanged — it is
never cleared, so an error from an earlier failure persists after a later
success. -/
theorem error_set_only_on_failure
    (locationId : Option String) (item : Item) (r : Response)
    (d : String) (a : ArchiveIngestItem) :
    (spike locationId item Outcome.success).item.error = item.error ∧
    (spike locationId item (Outcome.failure r)).item.error = some r ∧
    (unspike item Outcome.success).item.error = item.error ∧
    (unspike item (Outcome.failure r)).item.error = some r ∧
    (archiveContent d item (CreateOutcome.success a)).2.error = item.error ∧
    (archiveContent d item (CreateOutcome.failure r)).2.error = some r :=
  ⟨rfl, rfl, rfl, rfl, rfl, rfl⟩

/-- Claim C6: `unspike(item)` issues one update request against the
`archive_unspike` resource with an empty payload; `actioning.unspike` is false
after resolution on both paths, and on failure the rejection payload is
recorded in `item.error`. -/
theorem unspike_contract (item : Item) (o : Outcome) :
    (unspike item o).requests = [⟨"archive_unspike", item, []⟩] ∧
    (unspike item o).item.actioning.unspike = false ∧
    (unspike item o).item.error =
      (match o with
       | Outcome.success => item.error
       | Outcome.failure r => some r) := by
  cases o <;> exact ⟨rfl, rfl, rfl⟩

/-- Claim C7: the fetch-to-archive (`archiveContent`) activity issues one
creation request against the ingest resource carrying the item's `guid` and
the current desk identifier; on success it copies `task_id` and `created` from
the created resource onto the item and clears `actioning.archiveContent`; on
failure it records the rejection payload in `item.error` and clears the
flag. -/
theorem archiveContent_contract (d : String) (item : Item) (o : CreateOutcome) :
    (archiveContent d item o).1 = [⟨"archiveIngest", item.guid, d⟩] ∧
    (archiveContent d item o).2.actioning.archiveContent = false ∧
    (archiveContent d item o).2.task_id =
      (match o with
       | CreateOutcome.success a => some a.task_id
       | CreateOutcome.failure _ => item.task_id) ∧
    (archiveContent d item o).2.created =
      (match o with
       | CreateOutcome.success a => some a.created
       | CreateOutcome.failure _ => item.created) ∧
    (archiveContent d item o).2.error =
      (match o with
       | CreateOutcome.success _ => item.error
       | CreateOutcome.failure r => some r) := by
  cases o <;> exact ⟨rfl, rfl, rfl, rfl, rfl⟩

/-- Claim C8: the side effects of `spike` and `unspike` are confined to the
item's `actioning` flags and `error` field (and, for spike only, the location
selection, which is explicit in `spike`'s result and absent from `unspike`'s):
every other item field, and every `actioning` flag other than the operation's
own, is preserved on both paths. -/
theorem spike_unspike_frame
    (locationId : Option String) (item : Item) (o : Outcome) :
    ((spike locationId item o).item._id = item._id ∧
     (spike locationId item o).item.guid = item.guid ∧
     (spike locationId item o).item.state = item.state ∧
     (spike locationId item o).item.task_id = item.task_id ∧
     (spike locationId item o).item.created = item.created ∧
     (spike locationId item o).item.actioning.unspike =
       item.actioning.unspike ∧
     (spike locationId item o).item.actioning.archiveContent =
       item.actioning.archiveContent) ∧
    ((unspike item o).item._id = item._id ∧
     (unspike item o).item.guid = item.guid ∧
     (unspike item o).item.state = item.state ∧
     (unspike item o).item.task_id = item.task_id ∧
     (unspike item o).item.created = item.created ∧
     (unspike item o).item.actioning.spike = item.actioning.spike ∧
     (unspike item o).item.actioning.archiveContent =
       item.actioning.archiveContent) := by
  cases o <;>
    exact ⟨⟨rfl, rfl, rfl, rfl, rfl, rfl, rfl⟩,
           ⟨rfl, rfl, rfl, rfl, rfl, rfl, rfl⟩⟩

/-- Claim C9: creating a user with `{"username": "foo", "password": "bar"}`
yields a representation containing `username = "foo"` and
`_links.self.href = "/users/foo"`; the password never appears in the creation
response nor in any representation a read returns. -/
theorem user_creation_password_write_only :
    (fieldOf (createUser [] "foo" "bar").2 "username" = some "foo" ∧
     fieldOf (createUser [] "foo" "bar").2 "_links.self.href" =
       some "/users/foo" ∧
     fieldOf (createUser [] "foo" "bar").2 "password" = none) ∧
    (∀ u : StoredUser, fieldOf (userRepr u) "password" = none) ∧
    (∀ db username, (getUser db username).elim True
      (fun rep => fieldOf rep "password" = none)) := by
  have hu : ∀ u : StoredUser, fieldOf (userRepr u) "password" = none := by
    intro u
    rcases u with ⟨un, pw, fn⟩
    cases fn <;> rfl
  refine ⟨⟨rfl, rfl, rfl⟩, hu, ?_⟩
  intro db username
  unfold getUser
  cases db.find? (fun u => u.username = username) with
  | none => trivial
  | some u => exact hu u

/-- Claim C10: when the spike update request fails, the failure handler leaves
the tracked selection unchanged — even when it equals the item's identifier;
deselection happens only on the success path. -/
theorem spike_failure_preserves_selection
    (locationId : Option String) (item : Item) (r : Response) :
    (spike locationId item (Outcome.failure r)).locationId = locationId := rfl

end Superdesk
